import Mathlib

/-!
Verification of the real-time conference interpreter server
(python-server): language topology, VAD state machine, session state,
stream-chat drain rules, the audio pipeline, translation cleaning, and
the room cache contract. Each definition is a shallow embedding of the
corresponding Python function; theorems settle the spec claims C1-C10.
-/

set_option maxRecDepth 4000

/-! ### Python string helpers

Python `str` is a sequence of code points; we model its operations over
`String.toList` so that everything reduces in the kernel. `py_lower`
mirrors `str.lower` on the ASCII range (the inputs exercised here are
ASCII or caseless scripts, where CPython agrees). `py_strip` mirrors
`str.strip()` on the common whitespace characters. -/

def py_strip (s : String) : String :=
  String.mk (((s.toList.dropWhile Char.isWhitespace).reverse.dropWhile Char.isWhitespace).reverse)

def py_lower (s : String) : String :=
  String.mk (s.toList.map Char.toLower)

def py_starts_with (s p : String) : Bool :=
  List.isPrefixOf p.toList s.toList

def py_ends_with (s p : String) : Bool :=
  List.isSuffixOf p.toList s.toList

def py_drop (s : String) (n : Nat) : String :=
  String.mk (s.toList.drop n)

def py_drop_right (s : String) (n : Nat) : String :=
  String.mk (s.toList.take (s.toList.length - n))

/-- Python `s.split(chr)` specialised to a single separator character. -/
def py_split_char (c : Char) (s : String) : List String :=
  (s.toList.foldr
    (fun ch acc =>
      if ch = c then [] :: acc
      else
        match acc with
        | [] => [[ch]]
        | h :: t => (ch :: h) :: t)
    [[]]).map String.mk

/-! ### Config (config/settings.py) -/

def Config.SAMPLE_RATE : Nat := 16000

def Config.BYTES_PER_SAMPLE : Nat := 2

def Config.BYTES_PER_SECOND : Nat := Config.SAMPLE_RATE * Config.BYTES_PER_SAMPLE

def Config.CHUNK_DURATION_MS : Nat := 1500

def Config.SENTENCE_MAX_DURATION_MS : Nat := 2500

/-- `int(BYTES_PER_SECOND * SENTENCE_MAX_DURATION_MS / 1000)` = 80000 bytes. -/
def Config.SENTENCE_MAX_BYTES : Nat :=
  Config.BYTES_PER_SECOND * Config.SENTENCE_MAX_DURATION_MS / 1000

def Config.SILENCE_DURATION_MS : Nat := 350

def Config.MIN_TTS_TEXT_LENGTH : Nat := 2

/-- Filler word set from config/settings.py (`Config.FILLER_WORDS`). -/
def Config.FILLER_WORDS : List String :=
  ["네", "예", "응", "음", "어", "아", "으", "흠", "뭐", "그", "저",
   "아아", "어어", "음음", "네네", "예예", "그래", "응응",
   "uh", "um", "ah", "oh", "hmm", "yeah", "yes", "no", "ok", "okay",
   "well", "so", "like", "you know", "i mean",
   "あ", "え", "う", "ん", "はい", "うん", "ええ", "まあ",
   "嗯", "啊", "哦", "呃", "好", "是"]

/-- The filler membership test used at services/conversation.py lines 273-274
and 394-395: `text.lower().strip() in FILLER_WORDS or text.strip() in FILLER_WORDS`. -/
def is_filler (text : String) : Bool :=
  Config.FILLER_WORDS.contains (py_strip (py_lower text)) ||
  Config.FILLER_WORDS.contains (py_strip text)

/-! ### Language topology (language/topology.py) -/

inductive BufferingStrategy where
  | CHUNK_BASED
  | SENTENCE_BASED
deriving DecidableEq, Repr

def LanguageTopology.SOV_LANGUAGES : List String := ["ko", "ja", "tr", "hi", "bn"]

def LanguageTopology.SVO_LANGUAGES : List String :=
  ["en", "zh", "es", "fr", "de", "pt", "ru", "it"]

def LanguageTopology.VSO_LANGUAGES : List String := ["ar", "he"]

/-- `WORD_ORDER_GROUPS.get(lang, "SVO")`: the merged dict maps each member of
the three (disjoint) family sets to its label and any other code to "SVO". -/
def LanguageTopology.word_order_group (lang : String) : String :=
  if lang ∈ LanguageTopology.SOV_LANGUAGES then "SOV"
  else if lang ∈ LanguageTopology.SVO_LANGUAGES then "SVO"
  else if lang ∈ LanguageTopology.VSO_LANGUAGES then "VSO"
  else "SVO"

def LanguageTopology.get_strategy (source_lang target_lang : String) : BufferingStrategy :=
  if LanguageTopology.word_order_group source_lang
     = LanguageTopology.word_order_group target_lang then
    BufferingStrategy.CHUNK_BASED
  else
    BufferingStrategy.SENTENCE_BASED

def LanguageTopology.get_buffer_duration_ms (source_lang target_lang : String) : Nat :=
  if LanguageTopology.get_strategy source_lang target_lang = BufferingStrategy.CHUNK_BASED then
    Config.CHUNK_DURATION_MS
  else
    Config.SENTENCE_MAX_DURATION_MS

/-! ### VAD processor (audio/vad.py)

`has_speech` and `filter_speech` call the external WebRTC classifier, so the
per-chunk speech decision and the filtered speech bytes enter the model as
oracle inputs. `process_chunk`'s state machine is embedded exactly. -/

structure VadState where
  is_speaking : Bool
  silence_frames : Nat
  speech_frames : Nat
deriving DecidableEq, Repr

def vadInit : VadState := ⟨false, 0, 0⟩

def min_speech_frames : Nat := 3

/-- `int(Config.SILENCE_DURATION_MS / self.frame_duration_ms)` = 350 / 30 = 11. -/
def max_silence_frames : Nat := Config.SILENCE_DURATION_MS / 30

/-- VADProcessor.process_chunk, with the classifier decision on the chunk
(`self.has_speech(audio_bytes)`) abstracted as the Boolean input.
Returns (new state, has_speech, is_sentence_end). -/
def process_chunk (v : VadState) (hasSpeech : Bool) : VadState × Bool × Bool :=
  if hasSpeech then
    let sf := v.speech_frames + 1
    let speaking := if ¬ v.is_speaking ∧ sf ≥ min_speech_frames then true else v.is_speaking
    (⟨speaking, 0, sf⟩, true, false)
  else
    if v.is_speaking then
      let sil := v.silence_frames + 1
      if sil ≥ max_silence_frames then
        (⟨false, 0, 0⟩, false, true)
      else
        (⟨v.is_speaking, sil, v.speech_frames⟩, false, false)
    else
      (v, false, false)

/-- Trace of successive process_chunk calls: each entry records the state at
call time, the state after the call, and the returned pair. -/
def vad_trace : VadState → List Bool → List (VadState × VadState × Bool × Bool)
  | _, [] => []
  | v, h :: t =>
    let r := process_chunk v h
    (v, r.1, r.2.1, r.2.2) :: vad_trace r.1 t

/-! ### Session state (models/session.py)

Audio bytes are modelled as `List Nat` (one entry per byte). The participant
dict is modelled as the list of its values. Wall-clock latency totals are
observability-only floats in the source and are omitted. -/

structure Speaker where
  participant_id : String
  nickname : String
  profile_img : String
  source_language : String
deriving DecidableEq, Repr

structure Participant where
  participant_id : String
  nickname : String
  profile_img : String
  target_language : String
  translation_enabled : Bool
deriving DecidableEq, Repr

structure SessionState where
  session_id : String
  room_id : String
  speaker : Speaker
  participants : List Participant
  audio_buffer : List Nat
  vad : VadState
  primary_strategy : BufferingStrategy
  chunks_processed : Nat
  silence_skipped : Nat
  sentences_completed : Nat
deriving DecidableEq, Repr

/-- SessionState.get_target_languages: the set of target languages of
participants whose translation flag is on and whose target differs from the
speaker's source language. The Python set is modelled as a dedup list. -/
def get_target_languages (s : SessionState) : List String :=
  ((s.participants.filter
      (fun p => p.translation_enabled && p.target_language != s.speaker.source_language)).map
    (fun p => p.target_language)).dedup

def get_participants_by_target_language (s : SessionState) (target_lang : String) : List String :=
  (s.participants.filter
      (fun p => p.translation_enabled && p.target_language == target_lang)).map
    (fun p => p.participant_id)

/-- The early-return loop body of SessionState.determine_primary_strategy. -/
def determine_loop (src : String) : List String → BufferingStrategy
  | [] => BufferingStrategy.CHUNK_BASED
  | t :: ts =>
    if LanguageTopology.get_strategy src t = BufferingStrategy.SENTENCE_BASED then
      BufferingStrategy.SENTENCE_BASED
    else
      determine_loop src ts

/-- SessionState.determine_primary_strategy: recompute, store and return the
session strategy (the in-place mutation is modelled as a state update). -/
def determine_primary_strategy (s : SessionState) : SessionState × BufferingStrategy :=
  let st := determine_loop s.speaker.source_language (get_target_languages s)
  ({s with primary_strategy := st}, st)

/-! ### Outbound messages and backend-call log

`timestamp_ms` is wall clock and omitted; `confidence` is a float carried
through unchanged, modelled as an opaque `Nat` token. -/

structure SpeakerInfo where
  participant_id : String
  nickname : String
  profile_img : String
  source_language : String
deriving DecidableEq, Repr

structure TranslationEntry where
  target_language : String
  translated_text : String
  target_participant_ids : List String
deriving DecidableEq, Repr

inductive ChatResponse where
  | status (session_id room_id : String) (code message : String)
      (strategy : BufferingStrategy) (primary_target_language : String) (buffer_size_ms : Nat)
  | transcript (session_id room_id : String) (id : String) (speaker : SpeakerInfo)
      (original_text original_language : String) (translations : List TranslationEntry)
      (provisional is_final : Bool) (confidence : Nat)
  | audio (session_id room_id : String) (transcript_id target_language : String)
      (target_participant_ids : List String) (audio_data : List Nat) (format : String)
      (sample_rate : Nat) (duration_ms : Nat) (speaker_participant_id : String)
  | error (session_id : String) (code message : String)
deriving DecidableEq, Repr

/-- Log entry for each room-cache-mediated backend invocation issued by the
pipeline (get_or_create_stt / get_or_create_translation / get_or_create_tts
call sites in services/conversation.py). -/
inductive BackendCall where
  | stt (room_id speaker_id : String) (audio_bytes : List Nat)
  | translate (room_id : String) (text source_lang target_lang : String)
  | tts (room_id : String) (text target_lang : String)
deriving DecidableEq, Repr

def mkSpeakerInfo (s : Speaker) : SpeakerInfo :=
  ⟨s.participant_id, s.nickname, s.profile_img, s.source_language⟩

def ChatResponse.isAudioWithId (r : ChatResponse) (t : String) : Bool :=
  match r with
  | .audio _ _ tid _ _ _ _ _ _ _ => tid == t
  | _ => false

def ChatResponse.isTranscriptWithId (r : ChatResponse) (t : String) : Bool :=
  match r with
  | .transcript _ _ tid _ _ _ _ _ _ _ => tid == t
  | _ => false

/-! ### Pipeline (ConversationServicer._process_audio)

Backend/cache results enter as oracle functions: `sttText`/`confidence` stand
for the `get_or_create_stt` result, `translateFn tgt` for the
`get_or_create_translation` result for target `tgt`, and `ttsFn text lang` for
the `get_or_create_tts` result (audio bytes, duration). `tid` stands for the
fresh `str(uuid.uuid4())[:8]` transcript id of the invocation. -/

/-- Translation accumulation loop (conversation.py lines 330-354): keep an
entry per target whose translated text is non-empty. -/
def translations_of (s : SessionState) (translateFn : String → String) : List TranslationEntry :=
  (get_target_languages s).filterMap (fun tgt =>
    let tr := translateFn tgt
    if tr = "" then none
    else some ⟨tgt, tr, get_participants_by_target_language s tgt⟩)

/-- One iteration of the TTS loop (conversation.py lines 387-432): returns the
backend calls issued and the AudioResult messages emitted for one entry. -/
def tts_one (s : SessionState) (tid : String) (ttsFn : String → String → List Nat × Nat)
    (t : TranslationEntry) : List BackendCall × List ChatResponse :=
  if (py_strip t.translated_text).length < Config.MIN_TTS_TEXT_LENGTH then ([], [])
  else if is_filler t.translated_text then ([], [])
  else
    let r := ttsFn t.translated_text t.target_language
    ([BackendCall.tts s.room_id t.translated_text t.target_language],
     if r.1 ≠ [] then
       [ChatResponse.audio s.session_id s.room_id tid t.target_language
          t.target_participant_ids r.1 "mp3" 24000 r.2 s.speaker.participant_id]
     else [])

def tts_all (s : SessionState) (tid : String) (ttsFn : String → String → List Nat × Nat) :
    List TranslationEntry → List BackendCall × List ChatResponse
  | [] => ([], [])
  | t :: rest =>
    let h := tts_one s tid ttsFn t
    let r := tts_all s tid ttsFn rest
    (h.1 ++ r.1, h.2 ++ r.2)

/-- ConversationServicer._process_audio. Returns the updated session state,
the yielded messages in emission order, and the backend invocations (grouped
by stage; the source interleaves the Translation-stage calls with list
building, which does not affect which calls occur). -/
def process_audio (s : SessionState) (audioBytes : List Nat) (is_final : Bool)
    (tid : String) (sttText : String) (confidence : Nat)
    (translateFn : String → String) (ttsFn : String → String → List Nat × Nat) :
    SessionState × List ChatResponse × List BackendCall :=
  let s1 := {s with chunks_processed := s.chunks_processed + 1,
                    sentences_completed := s.sentences_completed + (if is_final then 1 else 0)}
  let src := s.speaker.source_language
  let sttCall := BackendCall.stt s.room_id s.speaker.participant_id audioBytes
  if sttText = "" then
    (s1, [], [sttCall])
  else if is_filler sttText then
    (s1,
     [ChatResponse.transcript s.session_id s.room_id tid (mkSpeakerInfo s.speaker)
        sttText src [] false true confidence],
     [sttCall])
  else if (py_strip sttText).length ≤ 1 then
    (s1,
     [ChatResponse.transcript s.session_id s.room_id tid (mkSpeakerInfo s.speaker)
        sttText src [] false true confidence],
     [sttCall])
  else
    let targets := get_target_languages s
    let transCalls := targets.map (fun tgt => BackendCall.translate s.room_id sttText src tgt)
    let translations := translations_of s translateFn
    let transcriptMsg := ChatResponse.transcript s.session_id s.room_id tid
      (mkSpeakerInfo s.speaker) sttText src translations (!is_final) is_final confidence
    let ta := tts_all s tid ttsFn translations
    (s1, transcriptMsg :: ta.2, sttCall :: (transCalls ++ ta.1))

/-! ### StreamChat audio_chunk branch (conversation.py lines 126-183)

`chunkHasSpeech` abstracts `vad.has_speech(audio_chunk)` (inside
process_chunk) and `speechAudio` abstracts `vad.filter_speech(audio_chunk)`,
both of which consult the external WebRTC classifier. -/

/-- `int(Config.BYTES_PER_SECOND * 0.5)` = 16000 bytes (500 ms). -/
def min_speech_bytes : Nat := Config.BYTES_PER_SECOND / 2

/-- Handles one audio_chunk for an initialized session. Returns the updated
session and, when the buffer is drained, the detached bytes, the literal
`is_final = True` flag passed to `_process_audio`, and the drain reason. -/
def handle_audio_chunk (s : SessionState) (chunkHasSpeech : Bool) (speechAudio : List Nat) :
    SessionState × Option (List Nat × Bool × String) :=
  let pc := process_chunk s.vad chunkHasSpeech
  let buf1 := if pc.2.1 = true ∧ speechAudio ≠ [] then s.audio_buffer ++ speechAudio
              else s.audio_buffer
  if pc.2.2 = true ∧ buf1.length ≥ min_speech_bytes then
    ({s with vad := pc.1, audio_buffer := []}, some (buf1, true, "sentence_end"))
  else if buf1.length ≥ Config.SENTENCE_MAX_BYTES then
    ({s with vad := vadInit, audio_buffer := []}, some (buf1, true, "buffer_full"))
  else
    ({s with vad := pc.1, audio_buffer := buf1}, none)

/-! ### StreamChat session_init branch (conversation.py lines 48-124) -/

def sessions_get (sessions : List (String × SessionState)) (sid : String) :
    Option SessionState :=
  (sessions.find? (fun kv => kv.1 == sid)).map Prod.snd

/-- Handles a session_init message. On an existing session id it updates the
speaker in place and recomputes the primary strategy (the Python object
mutation is modelled as updating the registry entry); otherwise it creates,
registers and announces a fresh session with a READY status message. -/
def handle_session_init (sessions : List (String × SessionState))
    (session_id room_id : String) (sp : Speaker) (ps : List Participant) :
    List (String × SessionState) × SessionState × List ChatResponse :=
  match sessions_get sessions session_id with
  | some existing =>
    let upd := (determine_primary_strategy {existing with speaker := sp}).1
    (sessions.map (fun kv => if kv.1 == session_id then (session_id, upd) else kv), upd, [])
  | none =>
    let st0 : SessionState :=
      { session_id := session_id, room_id := room_id, speaker := sp, participants := ps,
        audio_buffer := [], vad := vadInit,
        primary_strategy := BufferingStrategy.CHUNK_BASED,
        chunks_processed := 0, silence_skipped := 0, sentences_completed := 0 }
    let st1 := (determine_primary_strategy st0).1
    let tls := get_target_languages st1
    ((session_id, st1) :: sessions, st1,
     [ChatResponse.status session_id room_id "READY" "Session initialized (v10)"
        st1.primary_strategy (tls.headD "") 0])

/-! ### StreamChat dispatch (conversation.py lines 41-213)

One loop iteration of the request handler. Pipeline invocations are recorded
as `(bytes, is_final)` requests (their yielded messages come from
process_audio and are not re-modelled here); `responses` holds the messages
the dispatcher itself constructs. `chunkHasSpeech`/`speechAudio` are the
classifier oracles for the audio_chunk branch. -/

inductive Payload where
  | session_init (speaker : Speaker) (participants : List Participant)
  | audio_chunk (data : List Nat)
  | session_end
deriving DecidableEq, Repr

structure ClientMessage where
  session_id : String
  room_id : String
  participant_id : String
  payload : Payload
deriving DecidableEq, Repr

structure StepResult where
  sessions : List (String × SessionState)
  local_session : Option SessionState
  responses : List ChatResponse
  pipeline_calls : List (List Nat × Bool)
  closed : Bool
deriving DecidableEq, Repr

/-- `int(Config.BYTES_PER_SECOND * 0.3)` = 9600 bytes (300 ms), the
session_end final-drain threshold. -/
def end_min_speech_bytes : Nat := Config.BYTES_PER_SECOND * 3 / 10

def stream_step (sessions : List (String × SessionState))
    (local_session : Option SessionState) (req : ClientMessage)
    (chunkHasSpeech : Bool) (speechAudio : List Nat) : StepResult :=
  match req.payload with
  | Payload.session_init sp ps =>
    let r := handle_session_init sessions req.session_id req.room_id sp ps
    ⟨r.1, some r.2.1, r.2.2, [], false⟩
  | Payload.audio_chunk _ =>
    match local_session with
    | some s =>
      let r := handle_audio_chunk s chunkHasSpeech speechAudio
      let calls := match r.2 with
                   | some d => [(d.1, d.2.1)]
                   | none => []
      ⟨sessions.map (fun kv => if kv.1 == s.session_id then (kv.1, r.1) else kv),
       some r.1, [], calls, false⟩
    | none => ⟨sessions, none, [], [], false⟩
  | Payload.session_end =>
    let calls := match local_session with
                 | some s =>
                   if s.audio_buffer.length ≥ end_min_speech_bytes then
                     [(s.audio_buffer, true)]
                   else []
                 | none => []
    ⟨sessions.filter (fun kv => kv.1 != req.session_id), none, [], calls, true⟩

/-! ### ModelManager.translate and _clean_translation (server_v10.py)

The backend call is abstracted: `awsFn` stands for the AWS Translate response
text and `qwenRaw` for the decoded Qwen generation that the source feeds to
`_clean_translation`. Exception fallbacks (AWS failure falling back to Qwen,
Qwen failure returning "") are not modelled. -/

def clean_translation_prefixes : List String :=
  ["Here is the translation:", "Here's the translation:",
   "Translation:", "The translation is:", "Translated text:"]

/-- ModelManager._clean_translation: strip each known LLM prefix once (case
insensitively), keep the first non-empty line (the second if the first has
fewer than 5 characters and more lines exist), strip one layer of matching
surrounding quotes, and trim. -/
def clean_translation (text : String) : String :=
  let r0 := py_strip text
  let r1 := clean_translation_prefixes.foldl
    (fun acc p =>
      if py_starts_with (py_lower acc) (py_lower p) then py_strip (py_drop acc p.length)
      else acc)
    r0
  let ls := ((py_split_char '\n' r1).map py_strip).filter (fun l => l != "")
  let r2 := match ls with
            | [] => r1
            | [l] => l
            | l0 :: l1 :: _ => if l0.length < 5 then l1 else l0
  let r3 := if (py_starts_with r2 "\"" && py_ends_with r2 "\"") ||
               (py_starts_with r2 "'" && py_ends_with r2 "'") then
              py_drop_right (py_drop r2 1) 1
            else r2
  py_strip r3

/-- ModelManager.translate: empty-after-strip input returns "", identical
source and target return the input, otherwise the selected backend runs (the
"aws" backend's text is returned as is; any other backend value selects the
Qwen path, whose raw output is cleaned). -/
def ModelManager.translate (backend : String) (awsFn : String → String → String → String)
    (qwenRaw : String → String → String → String)
    (text source_lang target_lang : String) : String :=
  if py_strip text = "" then ""
  else if source_lang == target_lang then text
  else if backend == "aws" then awsFn text source_lang target_lang
  else clean_translation (qwenRaw text source_lang target_lang)

/-! ### Room cache single-flight contract (spec section 4.4) -/

structure SttKey where
  room_id : String
  speaker_id : String
  audio_digest : List Nat
deriving DecidableEq, Repr

/-- The STT cache key assembled at the get_or_create_stt call site
(conversation.py lines 255-260): room id, speaker participant id, and the
content digest of the PCM bytes (modelled as the bytes themselves, i.e. an
injective digest). -/
def stt_request_key (s : SessionState) (audioBytes : List Nat) : SttKey :=
  ⟨s.room_id, s.speaker.participant_id, audioBytes⟩

/-- Modelled from the spec: the Room Cache implementation is not under src/
(only its call sites in services/conversation.py are). Spec section 4.4:
`getOrCreate(key, produce)` with single-flight semantics - concurrent
requests for the same key share one invocation of `produce` and all callers
observe its result. A batch of concurrent requests is modelled as a fold in
which each request either hits the table or invokes `produce` exactly once
and stores the value; the invocation log is returned alongside the results. -/
def single_flight_batch (produce : SttKey → String × Nat) :
    List SttKey → List (SttKey × (String × Nat)) → List (String × Nat) × List SttKey
  | [], _ => ([], [])
  | k :: ks, table =>
    match table.find? (fun kv => kv.1 == k) with
    | some kv =>
      let r := single_flight_batch produce ks table
      (kv.2 :: r.1, r.2)
    | none =>
      let v := produce k
      let r := single_flight_batch produce ks ((k, v) :: table)
      (v :: r.1, k :: r.2)

/-! ### Fixtures for concrete witnesses -/

/-- The post-append buffer of the audio_chunk handler, factored out of
handle_audio_chunk (definitionally equal to its `buf1`). -/
def buffer_after (s : SessionState) (hs : Bool) (speech : List Nat) : List Nat :=
  if (process_chunk s.vad hs).2.1 = true ∧ speech ≠ [] then s.audio_buffer ++ speech
  else s.audio_buffer

def ex_speaker : Speaker := ⟨"p1", "alice", "img", "ko"⟩

def ex_participants : List Participant := [⟨"p2", "bob", "img2", "en", true⟩]

def ex_session : SessionState :=
  { session_id := "s1", room_id := "r1", speaker := ex_speaker,
    participants := ex_participants, audio_buffer := [], vad := vadInit,
    primary_strategy := BufferingStrategy.SENTENCE_BASED,
    chunks_processed := 0, silence_skipped := 0, sentences_completed := 0 }

def ex_session_buf (buf : List Nat) : SessionState := {ex_session with audio_buffer := buf}

def ex_session2 : SessionState := {ex_session with session_id := "s2"}

def ex_speaker_b : Speaker := ⟨"p9", "carol", "img9", "ja"⟩

/-! ## Theorems -/

theorem word_order_group_cases (x : String) :
    LanguageTopology.word_order_group x =
      (if x ∈ LanguageTopology.SOV_LANGUAGES then "SOV"
       else if x ∈ LanguageTopology.VSO_LANGUAGES then "VSO"
       else "SVO") := by
  unfold LanguageTopology.word_order_group
  by_cases h1 : x ∈ LanguageTopology.SOV_LANGUAGES
  · simp [h1]
  · by_cases h2 : x ∈ LanguageTopology.SVO_LANGUAGES
    · have h3 : x ∉ LanguageTopology.VSO_LANGUAGES := by
        simp only [LanguageTopology.SVO_LANGUAGES, List.mem_cons, List.not_mem_nil,
          or_false] at h2
        rcases h2 with rfl | rfl | rfl | rfl | rfl | rfl | rfl | rfl <;> decide
      simp [h1, h2, h3]
    · simp [h1, h2]

/-- C3: strategy(x, y) is CHUNK_BASED exactly when the word-order families of
x and y agree; the family map sends the SOV/SVO/VSO sets to their labels and
any unrecognized code to SVO; and the max buffer is 1500 ms for CHUNK_BASED
pairs and 2500 ms otherwise. -/
theorem c3_strategy_iff_family (x y : String) :
    (LanguageTopology.get_strategy x y = BufferingStrategy.CHUNK_BASED ↔
      LanguageTopology.word_order_group x = LanguageTopology.word_order_group y)
    ∧ LanguageTopology.get_buffer_duration_ms x y =
        (if LanguageTopology.get_strategy x y = BufferingStrategy.CHUNK_BASED
         then 1500 else 2500)
    ∧ LanguageTopology.word_order_group x =
        (if x ∈ LanguageTopology.SOV_LANGUAGES then "SOV"
         else if x ∈ LanguageTopology.VSO_LANGUAGES then "VSO"
         else "SVO") := by
  refine ⟨?_, ?_, word_order_group_cases x⟩
  · unfold LanguageTopology.get_strategy
    by_cases h : LanguageTopology.word_order_group x = LanguageTopology.word_order_group y <;>
      simp [h]
  · simp [LanguageTopology.get_buffer_duration_ms, Config.CHUNK_DURATION_MS,
      Config.SENTENCE_MAX_DURATION_MS]

theorem process_chunk_sentence_end_sound (v : VadState) (b : Bool)
    (h : (process_chunk v b).2.2 = true) :
    v.is_speaking = true ∧ v.silence_frames + 1 ≥ max_silence_frames ∧
      (process_chunk v b).1 = vadInit := by
  cases b with
  | true => simp [process_chunk] at h
  | false =>
    by_cases hs : v.is_speaking
    · by_cases hsil : v.silence_frames + 1 ≥ max_silence_frames
      · exact ⟨hs, hsil, by simp [process_chunk, hs, hsil, vadInit]⟩
      · simp [process_chunk, hs, hsil] at h
    · simp [process_chunk, hs] at h

theorem vad_trace_sentence_end_sound (v : VadState) (inputs : List Bool)
    (e : VadState × VadState × Bool × Bool) (he : e ∈ vad_trace v inputs)
    (hse : e.2.2.2 = true) :
    e.1.is_speaking = true ∧ e.1.silence_frames + 1 ≥ max_silence_frames ∧
      e.2.1 = vadInit := by
  induction inputs generalizing v with
  | nil => simp [vad_trace] at he
  | cons b t ih =>
    simp only [vad_trace, List.mem_cons] at he
    rcases he with he | he
    · subst he
      simp only at hse
      obtain ⟨h1, h2, h3⟩ := process_chunk_sentence_end_sound v b hse
      exact ⟨h1, h2, h3⟩
    · exact ih (process_chunk v b).1 he

/-- C4: along every run of process_chunk from the initial VAD state, a
sentence-end is never returned from the Idle state: any trace entry reporting
is_sentence_end has a Speaking pre-state whose incremented silence counter
reached max_silence_frames, and its post-state is Idle with both counters
zeroed. -/
theorem c4_no_sentence_end_from_idle (inputs : List Bool)
    (e : VadState × VadState × Bool × Bool)
    (he : e ∈ vad_trace vadInit inputs) (hse : e.2.2.2 = true) :
    e.1.is_speaking = true ∧ e.1.silence_frames + 1 ≥ max_silence_frames ∧
      e.2.1 = vadInit :=
  vad_trace_sentence_end_sound vadInit inputs e he hse

/-- Witness for C4: three speech chunks followed by eleven silent chunks
produce a sentence-end whose pre-state is Speaking and whose post-state is the
zeroed Idle state. -/
theorem c4_witness :
    (⟨true, 10, 3⟩ : VadState).is_speaking = true ∧
      (⟨true, 10, 3⟩ : VadState).silence_frames + 1 ≥ max_silence_frames ∧
      (⟨false, 0, 0⟩ : VadState) = vadInit :=
  c4_no_sentence_end_from_idle ([true, true, true] ++ List.replicate 11 false)
    (⟨true, 10, 3⟩, ⟨false, 0, 0⟩, false, true) (by decide) (by decide)

theorem handle_audio_chunk_eq (s : SessionState) (hs : Bool) (speech : List Nat) :
    handle_audio_chunk s hs speech =
      (if (process_chunk s.vad hs).2.2 = true ∧
          (buffer_after s hs speech).length ≥ min_speech_bytes then
        ({s with vad := (process_chunk s.vad hs).1, audio_buffer := []},
          some (buffer_after s hs speech, true, "sentence_end"))
       else if (buffer_after s hs speech).length ≥ Config.SENTENCE_MAX_BYTES then
        ({s with vad := vadInit, audio_buffer := []},
          some (buffer_after s hs speech, true, "buffer_full"))
       else
        ({s with vad := (process_chunk s.vad hs).1, audio_buffer := buffer_after s hs speech},
          none)) := rfl

theorem ex_session_buffer_after (buf : List Nat) :
    buffer_after (ex_session_buf buf) false [] = buf := by
  have hpc : process_chunk (ex_session_buf buf).vad false = (vadInit, false, false) := rfl
  simp only [buffer_after, hpc]
  simp [ex_session_buf, ex_session]

theorem ex_session_no_drain (buf : List Nat)
    (hlen : ¬(buf.length ≥ Config.SENTENCE_MAX_BYTES)) :
    (handle_audio_chunk (ex_session_buf buf) false []).2 = none := by
  rw [handle_audio_chunk_eq]
  have hpc : process_chunk (ex_session_buf buf).vad false = (vadInit, false, false) := rfl
  rw [ex_session_buffer_after, hpc]
  simp [hlen]

theorem ex_session_buffer_full (buf : List Nat)
    (hlen : buf.length ≥ Config.SENTENCE_MAX_BYTES) :
    (handle_audio_chunk (ex_session_buf buf) false []).2 =
      some (buf, true, "buffer_full") := by
  rw [handle_audio_chunk_eq]
  have hpc : process_chunk (ex_session_buf buf).vad false = (vadInit, false, false) := rfl
  rw [ex_session_buffer_after, hpc]
  simp [hlen]

/-- C2: in an initialized session an audio_chunk drains the buffer exactly
when the VAD reported sentence-end with at least 500 ms (16000 bytes)
buffered - reason "sentence_end", VAD untouched - or, failing that, when the
buffer holds at least SENTENCE_MAX_BYTES = 80000 bytes - reason
"buffer_full", VAD reset; a drain detaches the post-append buffer, clears the
session buffer and invokes the pipeline with is_final = true; a buffer of
exactly 79999 bytes does not trigger buffer_full while 80000 bytes does. -/
theorem c2_drain_rule (s : SessionState) (hs : Bool) (speech : List Nat) :
    (((handle_audio_chunk s hs speech).2).isSome = true ↔
      (((process_chunk s.vad hs).2.2 = true ∧
          (buffer_after s hs speech).length ≥ min_speech_bytes) ∨
        (buffer_after s hs speech).length ≥ Config.SENTENCE_MAX_BYTES))
    ∧ ((handle_audio_chunk s hs speech).2 =
        some (buffer_after s hs speech, true, "sentence_end") ↔
      ((process_chunk s.vad hs).2.2 = true ∧
        (buffer_after s hs speech).length ≥ min_speech_bytes))
    ∧ ((handle_audio_chunk s hs speech).2 =
        some (buffer_after s hs speech, true, "buffer_full") ↔
      (¬((process_chunk s.vad hs).2.2 = true ∧
          (buffer_after s hs speech).length ≥ min_speech_bytes) ∧
        (buffer_after s hs speech).length ≥ Config.SENTENCE_MAX_BYTES))
    ∧ (∀ d, (handle_audio_chunk s hs speech).2 = some d →
        (handle_audio_chunk s hs speech).1.audio_buffer = [] ∧
          d.1 = buffer_after s hs speech ∧ d.2.1 = true)
    ∧ ((handle_audio_chunk s hs speech).2 =
        some (buffer_after s hs speech, true, "sentence_end") →
      (handle_audio_chunk s hs speech).1.vad = (process_chunk s.vad hs).1)
    ∧ ((handle_audio_chunk s hs speech).2 =
        some (buffer_after s hs speech, true, "buffer_full") →
      (handle_audio_chunk s hs speech).1.vad = vadInit)
    ∧ ((handle_audio_chunk s hs speech).2 = none →
      (handle_audio_chunk s hs speech).1.audio_buffer = buffer_after s hs speech ∧
        (handle_audio_chunk s hs speech).1.vad = (process_chunk s.vad hs).1)
    ∧ (handle_audio_chunk (ex_session_buf (List.replicate 79999 0)) false []).2 = none
    ∧ (handle_audio_chunk (ex_session_buf (List.replicate 80000 0)) false []).2 =
        some (List.replicate 80000 0, true, "buffer_full") := by
  rw [handle_audio_chunk_eq]
  refine ⟨?_, ?_, ?_, ?_, ?_, ?_, ?_, ?_, ?_⟩
  · by_cases c1 : (process_chunk s.vad hs).2.2 = true ∧
        (buffer_after s hs speech).length ≥ min_speech_bytes
    · simp [c1]
    · by_cases c2 : (buffer_after s hs speech).length ≥ Config.SENTENCE_MAX_BYTES <;>
        simp [c1, c2]
  · by_cases c1 : (process_chunk s.vad hs).2.2 = true ∧
        (buffer_after s hs speech).length ≥ min_speech_bytes
    · simp [c1]
    · by_cases c2 : (buffer_after s hs speech).length ≥ Config.SENTENCE_MAX_BYTES <;>
        simp [c1, c2]
  · by_cases c1 : (process_chunk s.vad hs).2.2 = true ∧
        (buffer_after s hs speech).length ≥ min_speech_bytes
    · simp [c1]
    · by_cases c2 : (buffer_after s hs speech).length ≥ Config.SENTENCE_MAX_BYTES <;>
        simp [c1, c2]
  · intro d hd
    by_cases c1 : (process_chunk s.vad hs).2.2 = true ∧
        (buffer_after s hs speech).length ≥ min_speech_bytes
    · simp [c1] at hd
      subst hd
      simp [c1]
    · by_cases c2 : (buffer_after s hs speech).length ≥ Config.SENTENCE_MAX_BYTES
      · simp [c1, c2] at hd
        subst hd
        simp [c1, c2]
      · simp [c1, c2] at hd
  · intro hd
    by_cases c1 : (process_chunk s.vad hs).2.2 = true ∧
        (buffer_after s hs speech).length ≥ min_speech_bytes
    · simp [c1]
    · by_cases c2 : (buffer_after s hs speech).length ≥ Config.SENTENCE_MAX_BYTES <;>
        simp [c1, c2] at hd
  · intro hd
    by_cases c1 : (process_chunk s.vad hs).2.2 = true ∧
        (buffer_after s hs speech).length ≥ min_speech_bytes
    · simp [c1] at hd
    · by_cases c2 : (buffer_after s hs speech).length ≥ Config.SENTENCE_MAX_BYTES
      · simp [c1, c2]
      · simp [c1, c2] at hd
  · intro hd
    by_cases c1 : (process_chunk s.vad hs).2.2 = true ∧
        (buffer_after s hs speech).length ≥ min_speech_bytes
    · simp [c1] at hd
    · by_cases c2 : (buffer_after s hs speech).length ≥ Config.SENTENCE_MAX_BYTES
      · simp [c1, c2] at hd
      · simp [c1, c2]
  · exact ex_session_no_drain (List.replicate 79999 0)
      (by rw [List.length_replicate]; decide)
  · exact ex_session_buffer_full (List.replicate 80000 0)
      (by rw [List.length_replicate]; decide)

/-- Witness for C2: an 80000-byte buffer with no sentence-end drains with the
buffer detached, the cleared session buffer, and is_final = true. -/
theorem c2_witness :
    (handle_audio_chunk (ex_session_buf (List.replicate 80000 0)) false []).1.audio_buffer = []
    ∧ ((List.replicate 80000 0 : List Nat), true, ("buffer_full" : String)).1 =
        buffer_after (ex_session_buf (List.replicate 80000 0)) false []
    ∧ ((List.replicate 80000 0 : List Nat), true, ("buffer_full" : String)).2.1 = true := by
  have hmain := c2_drain_rule (ex_session_buf (List.replicate 80000 0)) false []
  have hsome := hmain.2.2.2.2.2.2.2.2
  exact hmain.2.2.2.1 (List.replicate 80000 0, true, "buffer_full") hsome

theorem determine_loop_sentence_iff (src : String) (ts : List String) :
    determine_loop src ts = BufferingStrategy.SENTENCE_BASED ↔
      ∃ t ∈ ts, LanguageTopology.get_strategy src t = BufferingStrategy.SENTENCE_BASED := by
  induction ts with
  | nil => simp [determine_loop]
  | cons a ts ih =>
    by_cases h : LanguageTopology.get_strategy src a = BufferingStrategy.SENTENCE_BASED
    · have hcons : determine_loop src (a :: ts) = BufferingStrategy.SENTENCE_BASED := by
        simp [determine_loop, h]
      constructor
      · intro _
        exact ⟨a, List.mem_cons_self a ts, h⟩
      · intro _
        exact hcons
    · have hcons : determine_loop src (a :: ts) = determine_loop src ts := by
        simp [determine_loop, h]
      rw [hcons, ih]
      constructor
      · rintro ⟨t, ht, hst⟩
        exact ⟨t, List.mem_cons_of_mem a ht, hst⟩
      · rintro ⟨t, ht, hst⟩
        rcases List.mem_cons.mp ht with rfl | ht2
        · exact absurd hst h
        · exact ⟨t, ht2, hst⟩

theorem mem_get_target_languages (s : SessionState) (l : String) :
    l ∈ get_target_languages s ↔
      ∃ p ∈ s.participants, p.translation_enabled = true ∧ p.target_language = l ∧
        l ≠ s.speaker.source_language := by
  simp only [get_target_languages, List.mem_dedup, List.mem_map, List.mem_filter,
    Bool.and_eq_true, bne_iff_ne, ne_eq]
  constructor
  · rintro ⟨p, ⟨hp, hen, hne⟩, rfl⟩
    exact ⟨p, hp, hen, rfl, hne⟩
  · rintro ⟨p, hp, hen, hl, hne⟩
    subst hl
    exact ⟨p, ⟨hp, hen, hne⟩, rfl⟩

/-- C7: determine_primary_strategy returns and stores SENTENCE_BASED exactly
when some target language requires it against the speaker's source language,
and CHUNK_BASED otherwise; the target-language set consists exactly of the
target languages of translation-enabled participants whose target differs
from the speaker's source. -/
theorem c7_primary_strategy (s : SessionState) :
    ((determine_primary_strategy s).2 = BufferingStrategy.SENTENCE_BASED ↔
      ∃ t ∈ get_target_languages s,
        LanguageTopology.get_strategy s.speaker.source_language t =
          BufferingStrategy.SENTENCE_BASED)
    ∧ ((determine_primary_strategy s).2 = BufferingStrategy.CHUNK_BASED ↔
      ¬ ∃ t ∈ get_target_languages s,
        LanguageTopology.get_strategy s.speaker.source_language t =
          BufferingStrategy.SENTENCE_BASED)
    ∧ (determine_primary_strategy s).1 =
        {s with primary_strategy := (determine_primary_strategy s).2}
    ∧ (∀ l, l ∈ get_target_languages s ↔
        ∃ p ∈ s.participants, p.translation_enabled = true ∧ p.target_language = l ∧
          l ≠ s.speaker.source_language) := by
  have hiff := determine_loop_sentence_iff s.speaker.source_language (get_target_languages s)
  have h2 : (determine_primary_strategy s).2 =
      determine_loop s.speaker.source_language (get_target_languages s) := rfl
  refine ⟨by rw [h2]; exact hiff, ?_, rfl, fun l => mem_get_target_languages s l⟩
  rw [h2]
  cases hd : determine_loop s.speaker.source_language (get_target_languages s) with
  | CHUNK_BASED =>
    rw [hd] at hiff
    constructor
    · intro _ hex
      exact absurd (hiff.mpr hex) (by decide)
    · intro _
      rfl
  | SENTENCE_BASED =>
    rw [hd] at hiff
    constructor
    · intro hch
      exact absurd hch (by decide)
    · intro hnex
      exact absurd (hiff.mp rfl) hnex

theorem tts_one_audio_shape (s : SessionState) (tid : String)
    (ttsFn : String → String → List Nat × Nat) (t : TranslationEntry) (r : ChatResponse)
    (hr : r ∈ (tts_one s tid ttsFn t).2) :
    ∃ tgt pids ad dur,
      r = ChatResponse.audio s.session_id s.room_id tid tgt pids ad "mp3" 24000 dur
            s.speaker.participant_id := by
  unfold tts_one at hr
  split_ifs at hr with h1 h2
  · simp at hr
  · simp at hr
  · simp only at hr
    by_cases h3 : (ttsFn t.translated_text t.target_language).1 ≠ []
    · simp [h3] at hr
      exact ⟨t.target_language, t.target_participant_ids,
        (ttsFn t.translated_text t.target_language).1,
        (ttsFn t.translated_text t.target_language).2, hr⟩
    · simp [h3] at hr

theorem tts_all_audio_shape (s : SessionState) (tid : String)
    (ttsFn : String → String → List Nat × Nat) (ts : List TranslationEntry)
    (r : ChatResponse) (hr : r ∈ (tts_all s tid ttsFn ts).2) :
    ∃ tgt pids ad dur,
      r = ChatResponse.audio s.session_id s.room_id tid tgt pids ad "mp3" 24000 dur
            s.speaker.participant_id := by
  induction ts with
  | nil => simp [tts_all] at hr
  | cons t rest ih =>
    simp only [tts_all, List.mem_append] at hr
    rcases hr with hr | hr
    · exact tts_one_audio_shape s tid ttsFn t r hr
    · exact ih hr

/-- C1: in the message sequence yielded by one pipeline invocation, any
AudioResult carrying transcript id T is preceded by a TranscriptResult with
the same id: the transcript is always emitted strictly before its audio. -/
theorem c1_transcript_precedes_audio (s : SessionState) (audioBytes : List Nat)
    (is_final : Bool) (tid sttText : String) (conf : Nat)
    (translateFn : String → String) (ttsFn : String → String → List Nat × Nat)
    (i : Nat) (r : ChatResponse) (T : String)
    (hget : ((process_audio s audioBytes is_final tid sttText conf translateFn ttsFn).2.1).get? i
      = some r)
    (haud : r.isAudioWithId T = true) :
    ∃ j r', j < i ∧
      ((process_audio s audioBytes is_final tid sttText conf translateFn ttsFn).2.1).get? j
        = some r' ∧
      r'.isTranscriptWithId T = true := by
  by_cases g1 : sttText = ""
  · simp only [process_audio, if_pos g1] at hget
    simp at hget
  · by_cases g2 : is_filler sttText = true
    · simp only [process_audio, if_neg g1, if_pos g2] at hget
      cases i with
      | zero =>
        simp at hget
        subst hget
        simp [ChatResponse.isAudioWithId] at haud
      | succ k =>
        simp at hget
    · by_cases g3 : (py_strip sttText).length ≤ 1
      · simp only [process_audio, if_neg g1, if_neg g2, if_pos g3] at hget
        cases i with
        | zero =>
          simp at hget
          subst hget
          simp [ChatResponse.isAudioWithId] at haud
        | succ k =>
          simp at hget
      · simp only [process_audio, if_neg g1, if_neg g2, if_neg g3] at hget ⊢
        cases i with
        | zero =>
          simp at hget
          subst hget
          simp [ChatResponse.isAudioWithId] at haud
        | succ k =>
          rw [List.get?_cons_succ] at hget
          have hr := List.get?_mem hget
          obtain ⟨tgt, pids, ad, dur, rfl⟩ := tts_all_audio_shape s tid ttsFn _ r hr
          have hT : tid = T := by
            simpa [ChatResponse.isAudioWithId] using haud
          subst hT
          exact ⟨0, _, Nat.succ_pos k, rfl, by simp [ChatResponse.isTranscriptWithId]⟩

/-- Witness for C1: a concrete ko-to-en utterance yields a transcript at
index 0 followed by its AudioResult at index 1. -/
theorem c1_witness :
    ∃ j r', j < 1 ∧
      ((process_audio ex_session [1, 2] true "t1" "hello there" 9 (fun _ => "bonjour")
          (fun _ _ => ([5], 7))).2.1).get? j = some r' ∧
      r'.isTranscriptWithId "t1" = true :=
  c1_transcript_precedes_audio ex_session [1, 2] true "t1" "hello there" 9
    (fun _ => "bonjour") (fun _ _ => ([5], 7)) 1
    (ChatResponse.audio "s1" "r1" "t1" "en" ["p2"] [5] "mp3" 24000 7 "p1") "t1"
    (by decide) (by decide)

/-- C5: when STT returns non-empty text that is a configured filler or whose
trimmed form has at most one code point, the pipeline emits exactly one
transcript-only message carrying that text with an empty translations list,
and issues no translation or synthesis backend call (only the STT lookup). -/
theorem c5_filler_short_gate (s : SessionState) (audioBytes : List Nat) (is_final : Bool)
    (tid sttText : String) (conf : Nat) (translateFn : String → String)
    (ttsFn : String → String → List Nat × Nat)
    (hne : sttText ≠ "")
    (hgate : is_filler sttText = true ∨ (py_strip sttText).length ≤ 1) :
    (process_audio s audioBytes is_final tid sttText conf translateFn ttsFn).2.1 =
      [ChatResponse.transcript s.session_id s.room_id tid (mkSpeakerInfo s.speaker)
        sttText s.speaker.source_language [] false true conf]
    ∧ (process_audio s audioBytes is_final tid sttText conf translateFn ttsFn).2.2 =
      [BackendCall.stt s.room_id s.speaker.participant_id audioBytes] := by
  rcases hgate with hf | hshort
  · exact ⟨by simp [process_audio, hne, hf], by simp [process_audio, hne, hf]⟩
  · by_cases hf : is_filler sttText = true
    · exact ⟨by simp [process_audio, hne, hf], by simp [process_audio, hne, hf]⟩
    · exact ⟨by simp [process_audio, hne, hf, hshort],
        by simp [process_audio, hne, hf, hshort]⟩

/-- Witness for C5: the Korean filler text yields the transcript-only output
and a lone STT backend call. -/
theorem c5_witness :
    (process_audio ex_session [1] true "t1" "네" 9 (fun _ => "x") (fun _ _ => ([], 0))).2.1 =
      [ChatResponse.transcript ex_session.session_id ex_session.room_id "t1"
        (mkSpeakerInfo ex_session.speaker) "네" ex_session.speaker.source_language [] false true 9]
    ∧ (process_audio ex_session [1] true "t1" "네" 9 (fun _ => "x") (fun _ _ => ([], 0))).2.2 =
      [BackendCall.stt ex_session.room_id ex_session.speaker.participant_id [1]] :=
  c5_filler_short_gate ex_session [1] true "t1" "네" 9 (fun _ => "x") (fun _ _ => ([], 0))
    (by decide) (Or.inl (by decide))

/-- C8: a session_init for an already registered session id replaces only the
speaker and recomputes the primary strategy: buffer, VAD state, roster and
counters are carried over unchanged and no message (in particular no second
READY) is emitted. -/
theorem c8_reinit_updates_speaker_only (sessions : List (String × SessionState))
    (sid rid : String) (sp : Speaker) (ps : List Participant) (ex : SessionState)
    (hex : sessions_get sessions sid = some ex) :
    (handle_session_init sessions sid rid sp ps).2.2 = []
    ∧ (handle_session_init sessions sid rid sp ps).2.1 =
        {ex with speaker := sp,
                 primary_strategy :=
                   determine_loop sp.source_language
                     (get_target_languages {ex with speaker := sp})} := by
  constructor
  · simp [handle_session_init, hex]
  · simp [handle_session_init, hex, determine_primary_strategy]

/-- Witness for C8: re-initializing the registered session with a new speaker
keeps the buffer, VAD, roster and counters of the stored session. -/
theorem c8_witness :
    (handle_session_init [("s1", ex_session)] "s1" "r9" ex_speaker_b []).2.2 = []
    ∧ (handle_session_init [("s1", ex_session)] "s1" "r9" ex_speaker_b []).2.1 =
        {ex_session with speaker := ex_speaker_b,
                         primary_strategy :=
                           determine_loop ex_speaker_b.source_language
                             (get_target_languages {ex_session with speaker := ex_speaker_b})} :=
  c8_reinit_updates_speaker_only [("s1", ex_session)] "s1" "r9" ex_speaker_b [] ex_session
    (by decide)

/-- C10: an audio_chunk arriving before any session_init on the stream is
silently ignored: no response, no pipeline call, no session created, and the
stream stays open. -/
theorem c10_audio_chunk_before_init_ignored (sessions : List (String × SessionState))
    (sid rid pid : String) (data : List Nat) (hs : Bool) (speech : List Nat) :
    stream_step sessions none ⟨sid, rid, pid, Payload.audio_chunk data⟩ hs speech =
      ⟨sessions, none, [], [], false⟩ := rfl

theorem single_flight_all_hit (produce : SttKey → String × Nat) (k : SttKey)
    (v : String × Nat) (ks : List SttKey) (table : List (SttKey × (String × Nat)))
    (hall : ∀ x ∈ ks, x = k) (htab : table.find? (fun kv => kv.1 == k) = some (k, v)) :
    single_flight_batch produce ks table = (List.replicate ks.length v, []) := by
  induction ks with
  | nil => simp [single_flight_batch]
  | cons a ks ih =>
    have ha : a = k := hall a (List.mem_cons_self a ks)
    subst ha
    simp only [single_flight_batch]
    rw [htab]
    simp [ih (fun x hx => hall x (List.mem_cons_of_mem _ hx)), List.replicate_succ]

theorem single_flight_single_key (produce : SttKey → String × Nat) (k : SttKey)
    (ks : List SttKey) (hall : ∀ x ∈ ks, x = k) :
    (single_flight_batch produce ks []).2.length ≤ 1 ∧
      ∀ v ∈ (single_flight_batch produce ks []).1, v = produce k := by
  cases ks with
  | nil => simp [single_flight_batch]
  | cons a ks =>
    have ha : a = k := hall a (List.mem_cons_self a ks)
    subst ha
    have h2 : single_flight_batch produce ks [(a, produce a)] =
        (List.replicate ks.length (produce a), []) := by
      apply single_flight_all_hit
      · exact fun x hx => hall x (List.mem_cons_of_mem _ hx)
      · simp
    have hstep : single_flight_batch produce (a :: ks) [] =
        (produce a :: (single_flight_batch produce ks [(a, produce a)]).1,
         a :: (single_flight_batch produce ks [(a, produce a)]).2) := rfl
    rw [hstep, h2]
    constructor
    · simp
    · intro v hv
      rcases List.mem_cons.mp hv with h | h
      · exact h
      · exact List.eq_of_mem_replicate h

/-- C6: N pipeline invocations that share room id, speaker id and identical
audio bytes all present the same STT cache key, so the single-flight batch
invokes the transcribe producer at most once and every invocation observes
the same (text, confidence) result. -/
theorem c6_stt_single_flight (produce : SttKey → String × Nat) (ss : List SessionState)
    (audioBytes : List Nat) (room speakerId : String)
    (hshare : ∀ s ∈ ss, s.room_id = room ∧ s.speaker.participant_id = speakerId) :
    ((single_flight_batch produce (ss.map (fun s => stt_request_key s audioBytes)) []).2).length
      ≤ 1
    ∧ ∀ v ∈ (single_flight_batch produce (ss.map (fun s => stt_request_key s audioBytes)) []).1,
        v = produce ⟨room, speakerId, audioBytes⟩ := by
  apply single_flight_single_key
  intro x hx
  simp only [List.mem_map] at hx
  obtain ⟨s, hsmem, rfl⟩ := hx
  obtain ⟨h1, h2⟩ := hshare s hsmem
  simp [stt_request_key, h1, h2]

/-- Witness for C6: two sessions of the same room and speaker submitting the
same bytes trigger at most one producer invocation and agree on the result. -/
theorem c6_witness :
    ((single_flight_batch (fun _ => ("hello", 9))
        ([ex_session, ex_session2].map (fun s => stt_request_key s [1, 2])) []).2).length ≤ 1
    ∧ ∀ v ∈ (single_flight_batch (fun _ => ("hello", 9))
        ([ex_session, ex_session2].map (fun s => stt_request_key s [1, 2])) []).1,
        v = ("hello", 9) :=
  c6_stt_single_flight (fun _ => ("hello", 9)) [ex_session, ex_session2] [1, 2] "r1" "p1"
    (by decide)

/-- C9 counterexample: the whitespace-only input " " with source = target
returns "", not the input unchanged, because the empty-after-strip check
precedes the identity shortcut. -/
theorem c9_counterexample :
    ¬ (ModelManager.translate "aws" (fun t _ _ => t) (fun t _ _ => t) " " "en" "en" = " ") := by
  decide

/-- C9 (amended): translate returns the input unchanged for source = target
whenever the input has a non-whitespace character, and "" when the input
trims to empty; for distinct languages the qwen path returns
clean_translation of the raw model output (prefix stripping, first
non-trivial line, surrounding-quote stripping, as the concrete instances
show) while the aws path returns the provider text unmodified. -/
theorem c9_translate_amended (backend : String)
    (awsFn qwenRaw : String → String → String → String)
    (text source_lang target_lang : String) :
    (py_strip text ≠ "" → source_lang = target_lang →
      ModelManager.translate backend awsFn qwenRaw text source_lang target_lang = text)
    ∧ (py_strip text = "" →
      ModelManager.translate backend awsFn qwenRaw text source_lang target_lang = "")
    ∧ (py_strip text ≠ "" → source_lang ≠ target_lang → backend ≠ "aws" →
      ModelManager.translate backend awsFn qwenRaw text source_lang target_lang =
        clean_translation (qwenRaw text source_lang target_lang))
    ∧ (py_strip text ≠ "" → source_lang ≠ target_lang →
      ModelManager.translate "aws" awsFn qwenRaw text source_lang target_lang =
        awsFn text source_lang target_lang)
    ∧ clean_translation "Here is the translation: \"Bonjour\"" = "Bonjour"
    ∧ clean_translation "Translation: Hello" = "Hello"
    ∧ clean_translation "Ok:\nBonjour" = "Bonjour"
    ∧ clean_translation "'Hola'" = "Hola" := by
  refine ⟨?_, ?_, ?_, ?_, by decide, by decide, by decide, by decide⟩
  · intro h1 h2
    simp [ModelManager.translate, h1, h2]
  · intro h1
    simp [ModelManager.translate, h1]
  · intro h1 h2 h3
    simp [ModelManager.translate, h1, h2, h3]
  · intro h1 h2
    simp [ModelManager.translate, h1, h2]

/-- Witness for C9 (amended): a non-blank input with equal source and target
passes through unchanged. -/
theorem c9_witness :
    ModelManager.translate "aws" (fun _ _ _ => "X") (fun _ _ _ => "Y") "hi" "en" "en" = "hi" :=
  (c9_translate_amended "aws" (fun _ _ _ => "X") (fun _ _ _ => "Y") "hi" "en" "en").1
    (by decide) rfl
